import Mathlib

/-!
Shallow embedding of `src/server/services/comprehensiveTaxCalculator.py`
(class `ComprehensiveCanadianTaxCalculator2024`).  Monetary amounts are
modelled as `ℚ`; Python's `float('inf')` upper bracket bound is modelled
as `Option ℚ` with `none` standing for the unbounded bound.  Python `int`
fields (ages, counts) are modelled as `ℤ`.  Record fields that no modelled
computation path reads (e.g. the per-province `amounts` maps, which the
credit code fetches but never uses) are omitted from the corresponding
structures; every field that is read is kept under its source name.
-/

namespace TaxRay

/-- Mirrors dataclass `TaxBracket` (min_income, max_income, rate); `max_income`
is `none` when the source uses `float('inf')`. -/
structure TaxBracket where
  min_income : ℚ
  max_income : Option ℚ
  rate : ℚ


/-- Python `min(income, bracket.max_income)` where `max_income` may be `inf`. -/
def TaxBracket.cap (b : TaxBracket) (income : ℚ) : ℚ :=
  match b.max_income with
  | none => income
  | some m => min income m

/-- Mirrors dataclass `PersonalInfo` (fields read by the calculator). -/
structure PersonalInfo where
  age : ℤ := 30
  is_married : Bool := false
  spouse_income : ℚ := 0
  spouse_age : ℤ := 30
  has_disability : Bool := false
  spouse_has_disability : Bool := false
  num_dependants : ℤ := 0
  dependant_ages : List ℤ := []
  dependant_disabilities : List Bool := []
  is_student : Bool := false


/-- Mirrors dataclass `IncomeDetails` (fields read by the calculator). -/
structure IncomeDetails where
  employment_income : ℚ := 0
  employment_benefits : ℚ := 0
  stock_option_benefit : ℚ := 0
  stock_option_deduction_eligible : Bool := false
  commission_income : ℚ := 0
  tips_gratuities : ℚ := 0
  business_income : ℚ := 0
  professional_income : ℚ := 0
  farming_income : ℚ := 0
  fishing_income : ℚ := 0
  partnership_income : ℚ := 0
  interest_income : ℚ := 0
  canadian_dividend_income : ℚ := 0
  foreign_dividend_income : ℚ := 0
  foreign_business_income : ℚ := 0
  foreign_non_business_income : ℚ := 0
  rental_income : ℚ := 0
  royalty_income : ℚ := 0
  capital_gains : ℚ := 0
  capital_losses_current : ℚ := 0
  net_capital_losses_applied : ℚ := 0
  cpp_qpp_benefits : ℚ := 0
  oas_benefits : ℚ := 0
  private_pension : ℚ := 0
  foreign_pension : ℚ := 0
  rrif_withdrawals : ℚ := 0
  lif_withdrawals : ℚ := 0
  annuity_income : ℚ := 0
  ei_benefits : ℚ := 0
  alimony_received : ℚ := 0
  scholarship_income : ℚ := 0
  death_benefits : ℚ := 0
  other_income : ℚ := 0
  split_income_amount : ℚ := 0


/-- Mirrors dataclass `DeductionsCredits` (fields read by the calculator). -/
structure DeductionsCredits where
  rrsp_contribution : ℚ := 0
  union_dues : ℚ := 0
  childcare_expenses : ℚ := 0
  alimony_paid : ℚ := 0
  medical_expenses : ℚ := 0
  tuition_fees : ℚ := 0
  charitable_donations : ℚ := 0
  political_contributions : ℚ := 0


/-- Mirrors dataclass `AdvancedDeductions` (fields read by the calculator). -/
structure AdvancedDeductions where
  business_expenses : ℚ := 0
  capital_cost_allowance : ℚ := 0
  non_capital_losses_applied : ℚ := 0
  farm_losses_applied : ℚ := 0


/-- Mirrors dataclass `ForeignTaxPaid`. -/
structure ForeignTaxPaid where
  foreign_business_tax : ℚ := 0
  foreign_non_business_tax : ℚ := 0
  foreign_tax_carryover : ℚ := 0


/-- Mirrors dataclass `PensionSplitting`. -/
structure PensionSplitting where
  eligible_pension_income : ℚ := 0
  amount_to_split : ℚ := 0
  split_with_spouse : Bool := false


/-- One tier of a provincial surtax rule (`rate2`/`threshold2` when present). -/
structure SurtaxTier where
  rate : ℚ
  threshold : ℚ


/-- A provincial surtax rule: `rate1` applies over `threshold1`; an optional
second tier mirrors the `rate2`/`threshold2` keys of the source dict. -/
structure SurtaxInfo where
  rate1 : ℚ
  threshold1 : ℚ
  tier2 : Option SurtaxTier


/-- A provincial registry entry: brackets plus the optional surtax rule
(`'surtax': False` in the source is modelled as `none`).  The per-province
`amounts` maps are configuration that no computation path of the source
reads, and are omitted. -/
structure ProvData where
  brackets : List TaxBracket
  surtax : Option SurtaxInfo


/-- Mirrors dataclass `TaxResult`. -/
structure TaxResult where
  total_income : ℚ
  net_income : ℚ
  taxable_income : ℚ
  split_income_subject_to_tosi : ℚ
  federal_tax : ℚ
  provincial_tax : ℚ
  total_tax_before_credits : ℚ
  amt_income : ℚ
  amt_tax : ℚ
  amt_carryforward : ℚ
  tosi_tax : ℚ
  basic_personal_credit : ℚ
  spouse_credit : ℚ
  dependant_credit : ℚ
  age_credit : ℚ
  pension_credit : ℚ
  disability_credit : ℚ
  tuition_credit : ℚ
  medical_credit : ℚ
  charitable_credit : ℚ
  political_credit : ℚ
  foreign_tax_credit : ℚ
  total_non_refundable_credits : ℚ
  provincial_surtax : ℚ
  total_tax_after_credits : ℚ
  cpp_contribution : ℚ
  ei_contribution : ℚ
  gst_hst_credit : ℚ
  canada_workers_benefit : ℚ
  canada_child_benefit : ℚ
  climate_action_incentive : ℚ
  working_income_tax_benefit : ℚ
  total_refundable_credits : ℚ
  oas_clawback : ℚ
  ei_benefit_clawback : ℚ
  social_benefit_repayment : ℚ
  total_clawbacks : ℚ
  total_payable : ℚ
  net_income_after_tax : ℚ
  average_tax_rate : ℚ
  marginal_tax_rate : ℚ


/-! Constants from `setup_tax_data` / `setup_benefit_thresholds`. -/

/-- Federal tax brackets for 2024 (source lines 374-380). -/
def federal_brackets : List TaxBracket :=
  [⟨0, some 55867, 0.15⟩,
   ⟨55867, some 111733, 0.205⟩,
   ⟨111733, some 173205, 0.26⟩,
   ⟨173205, some 246752, 0.29⟩,
   ⟨246752, none, 0.33⟩]

/-- `federal_amounts['basic_personal']`. -/
def federal_basic_personal : ℚ := 15705
/-- `federal_amounts['spouse_equivalent']`. -/
def federal_spouse_equivalent : ℚ := 15705
/-- `federal_amounts['dependant']`. -/
def federal_dependant : ℚ := 2616
/-- `federal_amounts['age_amount']`. -/
def federal_age_amount : ℚ := 8790
/-- `federal_amounts['age_threshold']`. -/
def federal_age_threshold : ℚ := 42335
/-- `federal_amounts['pension_amount']`. -/
def federal_pension_amount : ℚ := 2000
/-- `federal_amounts['disability_amount']`. -/
def federal_disability_amount : ℚ := 9428
/-- `federal_amounts['tuition_rate']` (also the generic credit rate the source
fetches with `.get('tuition_rate', 0.15)`). -/
def federal_tuition_rate : ℚ := 0.15
/-- `federal_amounts['medical_rate']`. -/
def federal_medical_rate : ℚ := 0.15
/-- `federal_amounts['charitable_rate_low']`. -/
def federal_charitable_rate_low : ℚ := 0.15
/-- `federal_amounts['charitable_rate_high']`. -/
def federal_charitable_rate_high : ℚ := 0.29
/-- `federal_amounts['dividend_gross_up']`. -/
def federal_dividend_gross_up : ℚ := 1.38

/-- `self.amt_exemption`. -/
def amt_exemption : ℚ := 40000
/-- `self.amt_rate`. -/
def amt_rate : ℚ := 0.15
/-- `self.stock_option_deduction_rate`. -/
def stock_option_deduction_rate : ℚ := 0.50

/-- `self.cpp_max_pensionable`. -/
def cpp_max_pensionable : ℚ := 71300
/-- `self.cpp_basic_exemption`. -/
def cpp_basic_exemption : ℚ := 3500
/-- `self.cpp_rate`. -/
def cpp_rate : ℚ := 0.0595
/-- `self.cpp_max_contribution`. -/
def cpp_max_contribution : ℚ := 4055.25
/-- `self.ei_max_insurable`. -/
def ei_max_insurable : ℚ := 63750
/-- `self.ei_rate`. -/
def ei_rate : ℚ := 0.0163
/-- `self.ei_rate_quebec`. -/
def ei_rate_quebec : ℚ := 0.0127
/-- `self.qpip_rate`. -/
def qpip_rate : ℚ := 0.00494
/-- `self.qpp_rate`. -/
def qpp_rate : ℚ := 0.064
/-- `self.qpp_max_pensionable`. -/
def qpp_max_pensionable : ℚ := 71300
/-- `self.qpp_basic_exemption`. -/
def qpp_basic_exemption : ℚ := 3500

/-- `self.oas_clawback_threshold`. -/
def oas_clawback_threshold : ℚ := 86912
/-- `self.oas_clawback_rate`. -/
def oas_clawback_rate : ℚ := 0.15
/-- `self.ei_clawback_threshold`. -/
def ei_clawback_threshold : ℚ := 78750
/-- `self.ei_clawback_rate`. -/
def ei_clawback_rate : ℚ := 0.30
/-- `self.ccb_max_under6`. -/
def ccb_max_under6 : ℚ := 7787
/-- `self.ccb_max_6to17`. -/
def ccb_max_6to17 : ℚ := 6570
/-- `self.ccb_threshold`. -/
def ccb_threshold : ℚ := 36502
/-- `self.ccb_reduction_rate1`. -/
def ccb_reduction_rate1 : ℚ := 0.07
/-- `self.gst_credit_single`. -/
def gst_credit_single : ℚ := 467
/-- `self.gst_credit_married`. -/
def gst_credit_married : ℚ := 612
/-- `self.gst_credit_child`. -/
def gst_credit_child : ℚ := 161
/-- `self.gst_credit_threshold`. -/
def gst_credit_threshold : ℚ := 42335

/-- Registry entry `provincial_data['AB']`. -/
def provAB : ProvData :=
  { brackets := [⟨0, none, 0.10⟩],
    surtax := none }

/-- Registry entry `provincial_data['BC']`. -/
def provBC : ProvData :=
  { brackets :=
      [⟨0, some 47937, 0.0506⟩, ⟨47937, some 95875, 0.077⟩,
       ⟨95875, some 110076, 0.105⟩, ⟨110076, some 133664, 0.1229⟩,
       ⟨133664, some 181232, 0.147⟩, ⟨181232, none, 0.2045⟩],
    surtax := none }

/-- Registry entry `provincial_data['MB']`. -/
def provMB : ProvData :=
  { brackets :=
      [⟨0, some 47000, 0.108⟩, ⟨47000, some 100000, 0.1275⟩,
       ⟨100000, none, 0.174⟩],
    surtax := none }

/-- Registry entry `provincial_data['NB']`. -/
def provNB : ProvData :=
  { brackets :=
      [⟨0, some 49958, 0.094⟩, ⟨49958, some 99916, 0.14⟩,
       ⟨99916, some 185064, 0.16⟩, ⟨185064, none, 0.195⟩],
    surtax := none }

/-- Registry entry `provincial_data['NL']`. -/
def provNL : ProvData :=
  { brackets :=
      [⟨0, some 43198, 0.087⟩, ⟨43198, some 86395, 0.145⟩,
       ⟨86395, some 154244, 0.158⟩, ⟨154244, some 215943, 0.178⟩,
       ⟨215943, none, 0.198⟩],
    surtax := none }

/-- Registry entry `provincial_data['NS']`. -/
def provNS : ProvData :=
  { brackets :=
      [⟨0, some 29590, 0.0879⟩, ⟨29590, some 59180, 0.1495⟩,
       ⟨59180, some 93000, 0.1667⟩, ⟨93000, some 150000, 0.175⟩,
       ⟨150000, none, 0.21⟩],
    surtax := none }

/-- Registry entry `provincial_data['NT']`.  Note: unlike every other entry,
its final bracket has a finite `max_income` (239229), not `float('inf')`. -/
def provNT : ProvData :=
  { brackets :=
      [⟨0, some 50597, 0.059⟩, ⟨50597, some 101198, 0.086⟩,
       ⟨101198, some 164525, 0.122⟩, ⟨164525, some 239229, 0.1405⟩],
    surtax := none }

/-- Registry entry `provincial_data['NU']`. -/
def provNU : ProvData :=
  { brackets :=
      [⟨0, some 53268, 0.04⟩, ⟨53268, some 106537, 0.07⟩,
       ⟨106537, some 173205, 0.09⟩, ⟨173205, some 246752, 0.115⟩,
       ⟨246752, none, 0.115⟩],
    surtax := none }

/-- Registry entry `provincial_data['ON']`. -/
def provON : ProvData :=
  { brackets :=
      [⟨0, some 51446, 0.0505⟩, ⟨51446, some 102894, 0.0915⟩,
       ⟨102894, some 150000, 0.1116⟩, ⟨150000, some 220000, 0.1216⟩,
       ⟨220000, none, 0.1316⟩],
    surtax := some { rate1 := 0.20, threshold1 := 5554,
                     tier2 := some { rate := 0.36, threshold := 7108 } } }

/-- Registry entry `provincial_data['PE']`. -/
def provPE : ProvData :=
  { brackets :=
      [⟨0, some 32656, 0.098⟩, ⟨32656, some 65312, 0.138⟩,
       ⟨65312, some 105000, 0.167⟩, ⟨105000, none, 0.187⟩],
    surtax := some { rate1 := 0.10, threshold1 := 12500, tier2 := none } }

/-- Registry entry `provincial_data['QC']`. -/
def provQC : ProvData :=
  { brackets :=
      [⟨0, some 51780, 0.14⟩, ⟨51780, some 103545, 0.19⟩,
       ⟨103545, some 126000, 0.24⟩, ⟨126000, none, 0.2575⟩],
    surtax := none }

/-- Registry entry `provincial_data['SK']`. -/
def provSK : ProvData :=
  { brackets :=
      [⟨0, some 52057, 0.105⟩, ⟨52057, some 148734, 0.125⟩,
       ⟨148734, none, 0.145⟩],
    surtax := none }

/-- Registry entry `provincial_data['YT']`. -/
def provYT : ProvData :=
  { brackets :=
      [⟨0, some 55867, 0.064⟩, ⟨55867, some 111733, 0.09⟩,
       ⟨111733, some 173205, 0.109⟩, ⟨173205, some 500000, 0.128⟩,
       ⟨500000, none, 0.15⟩],
    surtax := none }

/-- The provincial/territorial registry `self.provincial_data`
(source lines 410-682): key lookup over the thirteen entries. -/
def provincial_data (p : String) : Option ProvData :=
  if p = "AB" then some provAB
  else if p = "BC" then some provBC
  else if p = "MB" then some provMB
  else if p = "NB" then some provNB
  else if p = "NL" then some provNL
  else if p = "NS" then some provNS
  else if p = "NT" then some provNT
  else if p = "NU" then some provNU
  else if p = "ON" then some provON
  else if p = "PE" then some provPE
  else if p = "QC" then some provQC
  else if p = "SK" then some provSK
  else if p = "YT" then some provYT
  else none

/-! The computation methods of `ComprehensiveCanadianTaxCalculator2024`. -/

/-- Mirrors `calculate_total_income` (source lines 751-783). -/
def calculate_total_income (income : IncomeDetails) : ℚ :=
  let employment_total := income.employment_income + income.employment_benefits +
      income.stock_option_benefit + income.commission_income + income.tips_gratuities
  let business_total := income.business_income + income.professional_income +
      income.farming_income + income.fishing_income + income.partnership_income
  let dividend_total := income.canadian_dividend_income * federal_dividend_gross_up +
      income.foreign_dividend_income
  let investment_total := income.interest_income + dividend_total + income.rental_income +
      income.royalty_income + income.foreign_business_income +
      income.foreign_non_business_income
  let capital_gains_total :=
      max 0 ((income.capital_gains - income.capital_losses_current) * 0.5)
  let capital_gains_total := max 0 (capital_gains_total - income.net_capital_losses_applied)
  let pension_total := income.cpp_qpp_benefits + income.oas_benefits +
      income.private_pension + income.foreign_pension + income.rrif_withdrawals +
      income.lif_withdrawals + income.annuity_income
  let other_total := income.ei_benefits + income.alimony_received +
      income.scholarship_income + income.death_benefits + income.other_income
  employment_total + business_total + investment_total +
    capital_gains_total + pension_total + other_total

/-- Mirrors `calculate_tax_on_brackets` (source lines 785-797): progressive
bracket loop with early `break` once `income <= bracket.min_income`. -/
def calculate_tax_on_brackets (income : ℚ) : List TaxBracket → ℚ
  | [] => 0
  | b :: bs =>
    if income ≤ b.min_income then 0
    else
      let taxable_in_bracket := b.cap income - b.min_income
      (if 0 < taxable_in_bracket then taxable_in_bracket * b.rate else 0) +
        calculate_tax_on_brackets income bs

/-- The loop of `calculate_marginal_rate`: the rate of the first bracket with
`income >= bracket.min_income and income < bracket.max_income` (the second
conjunct is vacuous on an `inf` bound), if any. -/
def findBracketRate (income : ℚ) : List TaxBracket → Option ℚ
  | [] => none
  | b :: bs =>
    match b.max_income with
    | none =>
      if b.min_income ≤ income then some b.rate else findBracketRate income bs
    | some m =>
      if b.min_income ≤ income ∧ income < m then some b.rate
      else findBracketRate income bs

/-- Mirrors `calculate_marginal_rate` (source lines 799-806): rate of the first
bracket containing the income, else the last bracket's rate, else 0. -/
def calculate_marginal_rate (income : ℚ) (brackets : List TaxBracket) : ℚ :=
  match findBracketRate income brackets with
  | some r => r
  | none =>
    match brackets.getLast? with
    | some b => b.rate
    | none => 0

/-- The non-refundable credits dict built by `calculate_non_refundable_credits`. -/
structure Credits where
  basic_personal : ℚ
  spouse : ℚ
  dependant : ℚ
  age : ℚ
  pension : ℚ
  disability : ℚ
  tuition : ℚ
  medical : ℚ
  charitable : ℚ
  political : ℚ


/-- Mirrors `calculate_non_refundable_credits` (source lines 957-1012).  The
`province` parameter is kept although the source fetches `prov_amounts` and
then never reads it: every credit uses the federal amounts. -/
def calculate_non_refundable_credits (province : String) (personal_info : PersonalInfo)
    (income : IncomeDetails) (deductions : DeductionsCredits)
    (net_income : ℚ) : Credits :=
  let _ := province
  let basic_personal := federal_basic_personal * federal_tuition_rate
  let spouse_credit_amount := max 0 (federal_spouse_equivalent - personal_info.spouse_income)
  let spouse := if personal_info.is_married then spouse_credit_amount * federal_tuition_rate else 0
  let dependant := (personal_info.num_dependants : ℚ) * federal_dependant * federal_tuition_rate
  let age :=
    if 65 ≤ personal_info.age then
      let age_reduction := max 0 (net_income - federal_age_threshold) * 0.15
      let age_credit_amount := max 0 (federal_age_amount - age_reduction)
      age_credit_amount * federal_tuition_rate
    else 0
  let eligible_pension := min federal_pension_amount
      (income.private_pension + income.rrif_withdrawals)
  let pension := eligible_pension * federal_tuition_rate
  let disability := if personal_info.has_disability then
      federal_disability_amount * federal_tuition_rate else 0
  let tuition := deductions.tuition_fees * federal_tuition_rate
  let medical_threshold := min 2759 (net_income * 0.03)
  let eligible_medical := max 0 (deductions.medical_expenses - medical_threshold)
  let medical := eligible_medical * federal_medical_rate
  let charitable :=
    if deductions.charitable_donations ≤ 200 then
      deductions.charitable_donations * federal_charitable_rate_low
    else
      200 * federal_charitable_rate_low +
        (deductions.charitable_donations - 200) * federal_charitable_rate_high
  let political := min (deductions.political_contributions * 0.75) 650
  { basic_personal := basic_personal, spouse := spouse, dependant := dependant,
    age := age, pension := pension, disability := disability, tuition := tuition,
    medical := medical, charitable := charitable, political := political }

/-- The dict returned by `calculate_alternative_minimum_tax`. -/
structure AmtResult where
  amt_income : ℚ
  amt_tax : ℚ
  amt_carryforward : ℚ


/-- Mirrors `calculate_alternative_minimum_tax` (source lines 1014-1038); the
`deductions` parameter is kept although the source never reads it. -/
def calculate_alternative_minimum_tax (income : IncomeDetails)
    (deductions : DeductionsCredits) (advanced_deductions : AdvancedDeductions) : AmtResult :=
  let _ := deductions
  let amt_income := calculate_total_income income +
      income.stock_option_benefit * 0.5 +
      advanced_deductions.capital_cost_allowance * 0.5
  let amt_taxable_income := max 0 (amt_income - amt_exemption)
  { amt_income := amt_income, amt_tax := amt_taxable_income * amt_rate,
    amt_carryforward := 0 }

/-- Mirrors `calculate_foreign_tax_credit` (source lines 1040-1050); the
`net_income` parameter is kept although the source never reads it. -/
def calculate_foreign_tax_credit (foreign_tax : ForeignTaxPaid)
    (federal_tax : ℚ) (net_income : ℚ) : ℚ :=
  let _ := net_income
  if foreign_tax.foreign_business_tax = 0 ∧ foreign_tax.foreign_non_business_tax = 0 then 0
  else
    min (foreign_tax.foreign_business_tax + foreign_tax.foreign_non_business_tax)
      (federal_tax * 0.1)

/-- Mirrors `calculate_cpp_contribution` (source lines 1052-1061). -/
def calculate_cpp_contribution (employment_income : ℚ) (province : String) : ℚ :=
  if province = "QC" then
    let pensionable_earnings := min employment_income qpp_max_pensionable - qpp_basic_exemption
    max 0 (pensionable_earnings * qpp_rate)
  else
    let pensionable_earnings := min employment_income cpp_max_pensionable - cpp_basic_exemption
    min (max 0 (pensionable_earnings * cpp_rate)) cpp_max_contribution

/-- Mirrors `calculate_ei_contribution` (source lines 1063-1073). -/
def calculate_ei_contribution (employment_income : ℚ) (province : String) : ℚ :=
  let insurable_earnings := min employment_income ei_max_insurable
  if province = "QC" then
    insurable_earnings * ei_rate_quebec + insurable_earnings * qpip_rate
  else
    insurable_earnings * ei_rate

/-- The dict returned by `calculate_clawbacks`. -/
structure Clawbacks where
  oas : ℚ
  ei : ℚ
  social_benefit : ℚ
  total : ℚ


/-- Mirrors `calculate_clawbacks` (source lines 1075-1100). -/
def calculate_clawbacks (net_income : ℚ) (income : IncomeDetails) : Clawbacks :=
  let oas :=
    if oas_clawback_threshold < net_income then
      min income.oas_benefits ((net_income - oas_clawback_threshold) * oas_clawback_rate)
    else 0
  let ei :=
    if ei_clawback_threshold < net_income ∧ 0 < income.ei_benefits then
      min (income.ei_benefits * 0.30)
        ((net_income - ei_clawback_threshold) * ei_clawback_rate)
    else 0
  let social_benefit := 0
  { oas := oas, ei := ei, social_benefit := social_benefit,
    total := oas + ei + social_benefit }

/-- The dict returned by `calculate_refundable_credits`. -/
structure RefundableCredits where
  gst_hst : ℚ
  canada_child_benefit : ℚ
  canada_workers_benefit : ℚ
  climate_action_incentive : ℚ
  working_income_tax_benefit : ℚ
  total : ℚ


/-- Mirrors `calculate_refundable_credits` (source lines 1102-1150); the
`province` parameter is kept although the source never reads it. -/
def calculate_refundable_credits (province : String) (personal_info : PersonalInfo)
    (net_income : ℚ) : RefundableCredits :=
  let _ := province
  let gst_base := (if personal_info.is_married then gst_credit_married else gst_credit_single) +
      (personal_info.num_dependants : ℚ) * gst_credit_child
  let gst_hst :=
    if gst_credit_threshold < net_income then
      max 0 (gst_base - (net_income - gst_credit_threshold) * 0.05)
    else gst_base
  let canada_child_benefit :=
    if 0 < personal_info.num_dependants then
      let ccb_amount := (personal_info.dependant_ages.map
        (fun age => if age < 6 then ccb_max_under6 else ccb_max_6to17)).sum
      if ccb_threshold < net_income then
        max 0 (ccb_amount - (net_income - ccb_threshold) * ccb_reduction_rate1)
      else ccb_amount
    else 0
  let canada_workers_benefit := 0
  let climate_action_incentive := 0
  let working_income_tax_benefit := 0
  { gst_hst := gst_hst, canada_child_benefit := canada_child_benefit,
    canada_workers_benefit := canada_workers_benefit,
    climate_action_incentive := climate_action_incentive,
    working_income_tax_benefit := working_income_tax_benefit,
    total := gst_hst + canada_child_benefit + canada_workers_benefit +
      climate_action_incentive + working_income_tax_benefit }

/-- Mirrors `calculate_combined_marginal_rate` (source lines 1152-1161). -/
def calculate_combined_marginal_rate (income : ℚ) (province : String) : ℚ :=
  let federal_rate := calculate_marginal_rate income federal_brackets
  let provincial_rate :=
    match provincial_data province with
    | none => 0
    | some prov_data => calculate_marginal_rate income prov_data.brackets
  (federal_rate + provincial_rate) * 100

/-! Intermediate quantities of `calculate_comprehensive_tax`
(source lines 808-911), factored out as named definitions so that the
theorems below can speak about each pipeline stage. -/

/-- The `stock_option_deduction` local (source lines 829-831). -/
def stock_option_deduction_of (income : IncomeDetails) : ℚ :=
  if income.stock_option_deduction_eligible then
    income.stock_option_benefit * stock_option_deduction_rate
  else 0

/-- The `total_deductions` local (source lines 834-837). -/
def total_deductions_of (income : IncomeDetails) (deductions : DeductionsCredits)
    (advanced_deductions : AdvancedDeductions) : ℚ :=
  deductions.rrsp_contribution + deductions.union_dues +
    deductions.childcare_expenses + deductions.alimony_paid +
    stock_option_deduction_of income + advanced_deductions.business_expenses +
    advanced_deductions.non_capital_losses_applied

/-- The `net_income` local (source line 839). -/
def net_income_of (income : IncomeDetails) (deductions : DeductionsCredits)
    (advanced_deductions : AdvancedDeductions) : ℚ :=
  max 0 (calculate_total_income income - total_deductions_of income deductions advanced_deductions)

/-- The `additional_deductions` local (source lines 842-843). -/
def additional_deductions_of (deductions : DeductionsCredits)
    (advanced_deductions : AdvancedDeductions) : ℚ :=
  deductions.medical_expenses + deductions.charitable_donations +
    advanced_deductions.farm_losses_applied

/-- The `taxable_income` local (source line 845). -/
def taxable_income_of (income : IncomeDetails) (deductions : DeductionsCredits)
    (advanced_deductions : AdvancedDeductions) : ℚ :=
  max 0 (net_income_of income deductions advanced_deductions -
    additional_deductions_of deductions advanced_deductions)

/-- The `tosi_tax` local (source lines 848-852). -/
def tosi_tax_of (income : IncomeDetails) : ℚ :=
  if 0 < income.split_income_amount then
    calculate_tax_on_brackets income.split_income_amount federal_brackets
  else 0

/-- The `federal_tax` local (source line 855). -/
def federal_tax_of (income : IncomeDetails) (deductions : DeductionsCredits)
    (advanced_deductions : AdvancedDeductions) : ℚ :=
  calculate_tax_on_brackets (taxable_income_of income deductions advanced_deductions)
    federal_brackets

/-- The `provincial_tax` local (source lines 858-862): silently 0 when the
province is not a key of the registry. -/
def provincial_tax_of (province : String) (income : IncomeDetails)
    (deductions : DeductionsCredits) (advanced_deductions : AdvancedDeductions) : ℚ :=
  match provincial_data province with
  | none => 0
  | some prov_data =>
    calculate_tax_on_brackets (taxable_income_of income deductions advanced_deductions)
      prov_data.brackets

/-- The surtax accumulation (source lines 864-871). -/
def calculate_surtax (provincial_tax : ℚ) : Option SurtaxInfo → ℚ
  | none => 0
  | some surtax_info =>
    (if surtax_info.threshold1 < provincial_tax then
      (provincial_tax - surtax_info.threshold1) * surtax_info.rate1
     else 0) +
    (match surtax_info.tier2 with
     | none => 0
     | some t =>
       if t.threshold < provincial_tax then (provincial_tax - t.threshold) * t.rate else 0)

/-- The `provincial_surtax` local (source lines 859-871). -/
def provincial_surtax_of (province : String) (income : IncomeDetails)
    (deductions : DeductionsCredits) (advanced_deductions : AdvancedDeductions) : ℚ :=
  match provincial_data province with
  | none => 0
  | some prov_data =>
    calculate_surtax (provincial_tax_of province income deductions advanced_deductions)
      prov_data.surtax

/-- The `total_tax_before_credits` local (source line 873). -/
def total_tax_before_credits_of (province : String) (income : IncomeDetails)
    (deductions : DeductionsCredits) (advanced_deductions : AdvancedDeductions) : ℚ :=
  federal_tax_of income deductions advanced_deductions +
    provincial_tax_of province income deductions advanced_deductions +
    provincial_surtax_of province income deductions advanced_deductions +
    tosi_tax_of income

/-- Sum of the ten credit-dict entries (source lines 881-884, without the
foreign tax credit). -/
def credits_sum (c : Credits) : ℚ :=
  c.basic_personal + c.spouse + c.dependant + c.age + c.pension +
    c.disability + c.tuition + c.medical + c.charitable + c.political

/-- The `total_non_refundable_credits` local (source lines 879-884). -/
def total_non_refundable_credits_of (province : String) (personal_info : PersonalInfo)
    (income : IncomeDetails) (deductions : DeductionsCredits)
    (advanced_deductions : AdvancedDeductions) (foreign_tax : ForeignTaxPaid) : ℚ :=
  credits_sum (calculate_non_refundable_credits province personal_info income deductions
      (net_income_of income deductions advanced_deductions)) +
    calculate_foreign_tax_credit foreign_tax
      (federal_tax_of income deductions advanced_deductions)
      (net_income_of income deductions advanced_deductions)

/-- The `total_tax_after_credits` local (source line 887). -/
def total_tax_after_credits_of (province : String) (personal_info : PersonalInfo)
    (income : IncomeDetails) (deductions : DeductionsCredits)
    (advanced_deductions : AdvancedDeductions) (foreign_tax : ForeignTaxPaid) : ℚ :=
  max 0 (total_tax_before_credits_of province income deductions advanced_deductions -
    total_non_refundable_credits_of province personal_info income deductions
      advanced_deductions foreign_tax)

/-- The `final_tax` local (source line 893): the larger of regular tax after
credits and AMT tax. -/
def final_tax_of (province : String) (personal_info : PersonalInfo)
    (income : IncomeDetails) (deductions : DeductionsCredits)
    (advanced_deductions : AdvancedDeductions) (foreign_tax : ForeignTaxPaid) : ℚ :=
  max (total_tax_after_credits_of province personal_info income deductions
        advanced_deductions foreign_tax)
    (calculate_alternative_minimum_tax income deductions advanced_deductions).amt_tax

/-- The `total_payable` local (source line 906). -/
def total_payable_of (province : String) (personal_info : PersonalInfo)
    (income : IncomeDetails) (deductions : DeductionsCredits)
    (advanced_deductions : AdvancedDeductions) (foreign_tax : ForeignTaxPaid) : ℚ :=
  final_tax_of province personal_info income deductions advanced_deductions foreign_tax +
    calculate_cpp_contribution income.employment_income province +
    calculate_ei_contribution income.employment_income province +
    (calculate_clawbacks (net_income_of income deductions advanced_deductions) income).total

/-- Mirrors `calculate_comprehensive_tax` (source lines 808-955).  The three
optional arguments mirror the Python `None` defaults, replaced by empty
records on entry; `pension_splitting` is bound and, as in the source, never
read afterwards. -/
def calculate_comprehensive_tax (province : String) (personal_info : PersonalInfo)
    (income : IncomeDetails) (deductions : DeductionsCredits)
    (advanced_deductions_opt : Option AdvancedDeductions)
    (foreign_tax_opt : Option ForeignTaxPaid)
    (pension_splitting_opt : Option PensionSplitting) : TaxResult :=
  let advanced_deductions := advanced_deductions_opt.getD {}
  let foreign_tax := foreign_tax_opt.getD {}
  let _pension_splitting := pension_splitting_opt.getD {}
  let total_income := calculate_total_income income
  let net_income := net_income_of income deductions advanced_deductions
  let taxable_income := taxable_income_of income deductions advanced_deductions
  let split_income_subject_to_tosi :=
    if 0 < income.split_income_amount then income.split_income_amount else 0
  let tosi_tax := tosi_tax_of income
  let federal_tax := federal_tax_of income deductions advanced_deductions
  let provincial_tax := provincial_tax_of province income deductions advanced_deductions
  let provincial_surtax := provincial_surtax_of province income deductions advanced_deductions
  let total_tax_before_credits :=
    total_tax_before_credits_of province income deductions advanced_deductions
  let credits := calculate_non_refundable_credits province personal_info income deductions net_income
  let foreign_tax_credit := calculate_foreign_tax_credit foreign_tax federal_tax net_income
  let total_non_refundable_credits :=
    total_non_refundable_credits_of province personal_info income deductions
      advanced_deductions foreign_tax
  let total_tax_after_credits :=
    total_tax_after_credits_of province personal_info income deductions
      advanced_deductions foreign_tax
  let amt_result := calculate_alternative_minimum_tax income deductions advanced_deductions
  let final_tax := final_tax_of province personal_info income deductions
      advanced_deductions foreign_tax
  let cpp_contribution := calculate_cpp_contribution income.employment_income province
  let ei_contribution := calculate_ei_contribution income.employment_income province
  let clawbacks := calculate_clawbacks net_income income
  let refundable_credits := calculate_refundable_credits province personal_info net_income
  let total_payable := final_tax + cpp_contribution + ei_contribution + clawbacks.total
  let net_income_after_tax := net_income - total_payable + refundable_credits.total
  let average_tax_rate := if 0 < net_income then total_payable / net_income * 100 else 0
  let marginal_tax_rate := calculate_combined_marginal_rate taxable_income province
  { total_income := total_income,
    net_income := net_income,
    taxable_income := taxable_income,
    split_income_subject_to_tosi := split_income_subject_to_tosi,
    federal_tax := federal_tax,
    provincial_tax := provincial_tax,
    total_tax_before_credits := total_tax_before_credits,
    amt_income := amt_result.amt_income,
    amt_tax := amt_result.amt_tax,
    amt_carryforward := amt_result.amt_carryforward,
    tosi_tax := tosi_tax,
    basic_personal_credit := credits.basic_personal,
    spouse_credit := credits.spouse,
    dependant_credit := credits.dependant,
    age_credit := credits.age,
    pension_credit := credits.pension,
    disability_credit := credits.disability,
    tuition_credit := credits.tuition,
    medical_credit := credits.medical,
    charitable_credit := credits.charitable,
    political_credit := credits.political,
    foreign_tax_credit := foreign_tax_credit,
    total_non_refundable_credits := total_non_refundable_credits,
    provincial_surtax := provincial_surtax,
    total_tax_after_credits := total_tax_after_credits,
    cpp_contribution := cpp_contribution,
    ei_contribution := ei_contribution,
    gst_hst_credit := refundable_credits.gst_hst,
    canada_workers_benefit := refundable_credits.canada_workers_benefit,
    canada_child_benefit := refundable_credits.canada_child_benefit,
    climate_action_incentive := refundable_credits.climate_action_incentive,
    working_income_tax_benefit := refundable_credits.working_income_tax_benefit,
    total_refundable_credits := refundable_credits.total,
    oas_clawback := clawbacks.oas,
    ei_benefit_clawback := clawbacks.ei,
    social_benefit_repayment := clawbacks.social_benefit,
    total_clawbacks := clawbacks.total,
    total_payable := total_payable,
    net_income_after_tax := net_income_after_tax,
    average_tax_rate := average_tax_rate,
    marginal_tax_rate := marginal_tax_rate }

/-! Auxiliary definitions used by the verification below. -/

/-- The input with the employment income field replaced, all other fields
held constant. -/
def withEmployment (income : IncomeDetails) (e : ℚ) : IncomeDetails :=
  { income with employment_income := e }

/-- All bracket rates in a list are non-negative. -/
def RatesNonneg (bs : List TaxBracket) : Prop :=
  ∀ b ∈ bs, 0 ≤ b.rate

/-- Surtax rates and thresholds are non-negative. -/
def SurtaxSane : Option SurtaxInfo → Prop
  | none => True
  | some s =>
    0 ≤ s.rate1 ∧ 0 ≤ s.threshold1 ∧
      (match s.tier2 with
       | none => True
       | some t => 0 ≤ t.rate ∧ 0 ≤ t.threshold)

/-- The first bracket (if any) starts at a non-negative minimum. -/
def HeadMinNonneg : List TaxBracket → Prop
  | [] => True
  | b :: _ => 0 ≤ b.min_income

/-- Sanity conditions on one registry entry that the proofs below rely on. -/
def ProvDataSane (d : ProvData) : Prop :=
  RatesNonneg d.brackets ∧ SurtaxSane d.surtax ∧ HeadMinNonneg d.brackets

/-- The bracket-list invariant stated by the spec: non-empty, each bracket's
range is non-degenerate (`min < max`), consecutive brackets are contiguous
and ascending (the next bracket starts exactly at the previous maximum), and
the final bracket's maximum is unbounded. -/
def bracketListWellFormed : List TaxBracket → Prop
  | [] => False
  | [b] => b.max_income = none
  | b :: b2 :: bs =>
    (match b.max_income with
     | none => False
     | some m => b.min_income < m ∧ b2.min_income = m) ∧
      bracketListWellFormed (b2 :: bs)

/-- The `max_income` of the last bracket of a registry entry. -/
def registryLastMax (p : String) : Option (Option ℚ) :=
  match provincial_data p with
  | none => none
  | some d =>
    match d.brackets.getLast? with
    | none => none
    | some b => some b.max_income

/-! Helper lemmas. -/

theorem federal_rates_nonneg : RatesNonneg federal_brackets := by
  intro b hb
  fin_cases hb <;> norm_num [federal_brackets]

theorem federal_headMin_nonneg : HeadMinNonneg federal_brackets := by
  norm_num [federal_brackets, HeadMinNonneg]

theorem provincial_data_cases (p : String) (d : ProvData) (h : provincial_data p = some d) :
    d = provAB ∨ d = provBC ∨ d = provMB ∨ d = provNB ∨ d = provNL ∨ d = provNS ∨
      d = provNT ∨ d = provNU ∨ d = provON ∨ d = provPE ∨ d = provQC ∨ d = provSK ∨
      d = provYT := by
  unfold provincial_data at h
  by_cases h1 : p = "AB"
  · rw [if_pos h1] at h; exact Or.inl (Option.some.inj h).symm
  rw [if_neg h1] at h
  by_cases h2 : p = "BC"
  · rw [if_pos h2] at h; exact Or.inr (Or.inl (Option.some.inj h).symm)
  rw [if_neg h2] at h
  by_cases h3 : p = "MB"
  · rw [if_pos h3] at h
    exact Or.inr (Or.inr (Or.inl (Option.some.inj h).symm))
  rw [if_neg h3] at h
  by_cases h4 : p = "NB"
  · rw [if_pos h4] at h
    exact Or.inr (Or.inr (Or.inr (Or.inl (Option.some.inj h).symm)))
  rw [if_neg h4] at h
  by_cases h5 : p = "NL"
  · rw [if_pos h5] at h
    exact Or.inr (Or.inr (Or.inr (Or.inr (Or.inl (Option.some.inj h).symm))))
  rw [if_neg h5] at h
  by_cases h6 : p = "NS"
  · rw [if_pos h6] at h
    exact Or.inr (Or.inr (Or.inr (Or.inr (Or.inr (Or.inl (Option.some.inj h).symm)))))
  rw [if_neg h6] at h
  by_cases h7 : p = "NT"
  · rw [if_pos h7] at h
    exact Or.inr (Or.inr (Or.inr (Or.inr (Or.inr (Or.inr (Or.inl
      (Option.some.inj h).symm))))))
  rw [if_neg h7] at h
  by_cases h8 : p = "NU"
  · rw [if_pos h8] at h
    exact Or.inr (Or.inr (Or.inr (Or.inr (Or.inr (Or.inr (Or.inr (Or.inl
      (Option.some.inj h).symm)))))))
  rw [if_neg h8] at h
  by_cases h9 : p = "ON"
  · rw [if_pos h9] at h
    exact Or.inr (Or.inr (Or.inr (Or.inr (Or.inr (Or.inr (Or.inr (Or.inr (Or.inl
      (Option.some.inj h).symm))))))))
  rw [if_neg h9] at h
  by_cases h10 : p = "PE"
  · rw [if_pos h10] at h
    exact Or.inr (Or.inr (Or.inr (Or.inr (Or.inr (Or.inr (Or.inr (Or.inr (Or.inr
      (Or.inl (Option.some.inj h).symm)))))))))
  rw [if_neg h10] at h
  by_cases h11 : p = "QC"
  · rw [if_pos h11] at h
    exact Or.inr (Or.inr (Or.inr (Or.inr (Or.inr (Or.inr (Or.inr (Or.inr (Or.inr
      (Or.inr (Or.inl (Option.some.inj h).symm))))))))))
  rw [if_neg h11] at h
  by_cases h12 : p = "SK"
  · rw [if_pos h12] at h
    exact Or.inr (Or.inr (Or.inr (Or.inr (Or.inr (Or.inr (Or.inr (Or.inr (Or.inr
      (Or.inr (Or.inr (Or.inl (Option.some.inj h).symm)))))))))))
  rw [if_neg h12] at h
  by_cases h13 : p = "YT"
  · rw [if_pos h13] at h
    exact Or.inr (Or.inr (Or.inr (Or.inr (Or.inr (Or.inr (Or.inr (Or.inr (Or.inr
      (Or.inr (Or.inr (Or.inr (Option.some.inj h).symm)))))))))))
  rw [if_neg h13] at h
  exact Option.noConfusion h

theorem provincial_data_sane (p : String) (d : ProvData)
    (h : provincial_data p = some d) : ProvDataSane d := by
  rcases provincial_data_cases p d h with rfl | rfl | rfl | rfl | rfl | rfl | rfl |
    rfl | rfl | rfl | rfl | rfl | rfl <;>
    refine ⟨fun b hb => ?_, ?_, ?_⟩ <;>
    first
      | (fin_cases hb <;>
          norm_num [provAB, provBC, provMB, provNB, provNL, provNS, provNT, provNU,
            provON, provPE, provQC, provSK, provYT])
      | norm_num [provAB, provBC, provMB, provNB, provNL, provNS, provNT, provNU,
          provON, provPE, provQC, provSK, provYT, SurtaxSane, HeadMinNonneg]

theorem tax_on_brackets_nonneg (income : ℚ) : ∀ bs : List TaxBracket,
    (∀ b ∈ bs, 0 ≤ b.rate) → 0 ≤ calculate_tax_on_brackets income bs
  | [], _ => le_refl 0
  | b :: bs, h => by
    have hb : 0 ≤ b.rate := h b (List.mem_cons_self b bs)
    have ih := tax_on_brackets_nonneg income bs (fun x hx => h x (List.mem_cons_of_mem b hx))
    simp only [calculate_tax_on_brackets]
    split_ifs with h1 h2
    · exact le_refl 0
    · exact add_nonneg (mul_nonneg (le_of_lt h2) hb) ih
    · simpa using ih

theorem cap_mono (b : TaxBracket) {i1 i2 : ℚ} (h : i1 ≤ i2) : b.cap i1 ≤ b.cap i2 := by
  unfold TaxBracket.cap
  cases b.max_income with
  | none => exact h
  | some m => exact min_le_min h (le_refl m)

theorem tax_on_brackets_mono {i1 i2 : ℚ} (h : i1 ≤ i2) : ∀ bs : List TaxBracket,
    (∀ b ∈ bs, 0 ≤ b.rate) →
    calculate_tax_on_brackets i1 bs ≤ calculate_tax_on_brackets i2 bs
  | [], _ => le_refl 0
  | b :: bs, hr => by
    have hb : 0 ≤ b.rate := hr b (List.mem_cons_self b bs)
    have ih := tax_on_brackets_mono h bs (fun x hx => hr x (List.mem_cons_of_mem b hx))
    by_cases h1 : i1 ≤ b.min_income
    · have hz : calculate_tax_on_brackets i1 (b :: bs) = 0 := by
        simp [calculate_tax_on_brackets, h1]
      rw [hz]
      exact tax_on_brackets_nonneg i2 (b :: bs) hr
    · have h2 : ¬ i2 ≤ b.min_income := fun hc => h1 (le_trans h hc)
      simp only [calculate_tax_on_brackets, if_neg h1, if_neg h2]
      have hcap : b.cap i1 - b.min_income ≤ b.cap i2 - b.min_income :=
        sub_le_sub_right (cap_mono b h) _
      have hterm :
          (if 0 < b.cap i1 - b.min_income then (b.cap i1 - b.min_income) * b.rate else 0) ≤
            (if 0 < b.cap i2 - b.min_income then (b.cap i2 - b.min_income) * b.rate else 0) := by
        split_ifs with g1 g2
        · exact mul_le_mul_of_nonneg_right hcap hb
        · exact absurd (lt_of_lt_of_le g1 hcap) g2
        · next g2 => exact mul_nonneg (le_of_lt g2) hb
        · exact le_refl 0
      exact add_le_add hterm ih

theorem tax_on_brackets_at_zero (bs : List TaxBracket) (h : HeadMinNonneg bs) :
    calculate_tax_on_brackets 0 bs = 0 := by
  cases bs with
  | nil => rfl
  | cons b bs =>
    have hb : (0 : ℚ) ≤ b.min_income := h
    simp [calculate_tax_on_brackets, hb]

theorem excess_term_mono (t1 t2 r th : ℚ) (h : t1 ≤ t2) (hr : 0 ≤ r) :
    (if th < t1 then (t1 - th) * r else 0) ≤ (if th < t2 then (t2 - th) * r else 0) := by
  split_ifs with g1 g2 g3
  · exact mul_le_mul_of_nonneg_right (sub_le_sub_right h th) hr
  · exact absurd (lt_of_lt_of_le g1 h) g2
  · exact mul_nonneg (by linarith) hr
  · exact le_refl 0

theorem surtax_mono {t1 t2 : ℚ} (h : t1 ≤ t2) (s : Option SurtaxInfo)
    (hs : SurtaxSane s) : calculate_surtax t1 s ≤ calculate_surtax t2 s := by
  cases s with
  | none => exact le_refl 0
  | some si =>
    obtain ⟨r1, th1, t2o⟩ := si
    cases t2o with
    | none =>
      obtain ⟨hr1, -, -⟩ := hs
      simpa [calculate_surtax] using excess_term_mono t1 t2 r1 th1 h hr1
    | some t =>
      obtain ⟨r2, th2⟩ := t
      obtain ⟨hr1, -, hr2, -⟩ := hs
      simp only [calculate_surtax]
      exact add_le_add (excess_term_mono t1 t2 r1 th1 h hr1)
        (excess_term_mono t1 t2 r2 th2 h hr2)

theorem surtax_at_zero (s : Option SurtaxInfo) (hs : SurtaxSane s) :
    calculate_surtax 0 s = 0 := by
  cases s with
  | none => rfl
  | some si =>
    obtain ⟨r1, th1, t2o⟩ := si
    cases t2o with
    | none =>
      obtain ⟨-, hth1, -⟩ := hs
      simp [calculate_surtax, not_lt.mpr hth1]
    | some t =>
      obtain ⟨r2, th2⟩ := t
      obtain ⟨-, hth1, -, hth2⟩ := hs
      simp [calculate_surtax, not_lt.mpr hth1, not_lt.mpr hth2]

/-! Monotonicity of each pipeline stage in the employment income field. -/

theorem total_income_withEmployment_mono (inc : IncomeDetails) {e1 e2 : ℚ} (h : e1 ≤ e2) :
    calculate_total_income (withEmployment inc e1) ≤
      calculate_total_income (withEmployment inc e2) := by
  simp only [calculate_total_income, withEmployment]
  linarith

theorem net_income_withEmployment_mono (inc : IncomeDetails) (ded : DeductionsCredits)
    (adv : AdvancedDeductions) {e1 e2 : ℚ} (h : e1 ≤ e2) :
    net_income_of (withEmployment inc e1) ded adv ≤
      net_income_of (withEmployment inc e2) ded adv := by
  have hti := total_income_withEmployment_mono inc h
  have htd : total_deductions_of (withEmployment inc e1) ded adv =
      total_deductions_of (withEmployment inc e2) ded adv := rfl
  unfold net_income_of
  rw [htd]
  exact max_le_max (le_refl 0) (sub_le_sub_right hti _)

theorem taxable_income_withEmployment_mono (inc : IncomeDetails) (ded : DeductionsCredits)
    (adv : AdvancedDeductions) {e1 e2 : ℚ} (h : e1 ≤ e2) :
    taxable_income_of (withEmployment inc e1) ded adv ≤
      taxable_income_of (withEmployment inc e2) ded adv := by
  have hn := net_income_withEmployment_mono inc ded adv h
  unfold taxable_income_of
  exact max_le_max (le_refl 0) (sub_le_sub_right hn _)

theorem federal_tax_withEmployment_mono (inc : IncomeDetails) (ded : DeductionsCredits)
    (adv : AdvancedDeductions) {e1 e2 : ℚ} (h : e1 ≤ e2) :
    federal_tax_of (withEmployment inc e1) ded adv ≤
      federal_tax_of (withEmployment inc e2) ded adv :=
  tax_on_brackets_mono (taxable_income_withEmployment_mono inc ded adv h)
    federal_brackets federal_rates_nonneg

theorem provincial_tax_withEmployment_mono (p : String) (inc : IncomeDetails)
    (ded : DeductionsCredits) (adv : AdvancedDeductions) {e1 e2 : ℚ} (h : e1 ≤ e2) :
    provincial_tax_of p (withEmployment inc e1) ded adv ≤
      provincial_tax_of p (withEmployment inc e2) ded adv := by
  unfold provincial_tax_of
  cases hp : provincial_data p with
  | none => exact le_refl 0
  | some d =>
    exact tax_on_brackets_mono (taxable_income_withEmployment_mono inc ded adv h)
      d.brackets (provincial_data_sane p d hp).1

theorem provincial_surtax_withEmployment_mono (p : String) (inc : IncomeDetails)
    (ded : DeductionsCredits) (adv : AdvancedDeductions) {e1 e2 : ℚ} (h : e1 ≤ e2) :
    provincial_surtax_of p (withEmployment inc e1) ded adv ≤
      provincial_surtax_of p (withEmployment inc e2) ded adv := by
  unfold provincial_surtax_of
  cases hp : provincial_data p with
  | none => exact le_refl 0
  | some d =>
    exact surtax_mono (provincial_tax_withEmployment_mono p inc ded adv h)
      d.surtax (provincial_data_sane p d hp).2.1

theorem amt_tax_withEmployment_mono (inc : IncomeDetails) (ded : DeductionsCredits)
    (adv : AdvancedDeductions) {e1 e2 : ℚ} (h : e1 ≤ e2) :
    (calculate_alternative_minimum_tax (withEmployment inc e1) ded adv).amt_tax ≤
      (calculate_alternative_minimum_tax (withEmployment inc e2) ded adv).amt_tax := by
  have hti := total_income_withEmployment_mono inc h
  simp only [calculate_alternative_minimum_tax, withEmployment]
  refine mul_le_mul_of_nonneg_right (max_le_max (le_refl 0) ?_) (by norm_num [amt_rate])
  simp only [withEmployment] at hti
  linarith

theorem credits_sum_anti (p : String) (pi : PersonalInfo) (inc : IncomeDetails)
    (ded : DeductionsCredits) {n1 n2 : ℚ} (h : n1 ≤ n2) :
    credits_sum (calculate_non_refundable_credits p pi inc ded n2) ≤
      credits_sum (calculate_non_refundable_credits p pi inc ded n1) := by
  simp only [credits_sum, calculate_non_refundable_credits]
  have hage :
      (if 65 ≤ pi.age then
          max 0 (federal_age_amount - max 0 (n2 - federal_age_threshold) * 0.15) *
            federal_tuition_rate
        else 0) ≤
      (if 65 ≤ pi.age then
          max 0 (federal_age_amount - max 0 (n1 - federal_age_threshold) * 0.15) *
            federal_tuition_rate
        else 0) := by
    split_ifs with hg
    · refine mul_le_mul_of_nonneg_right (max_le_max (le_refl 0) (sub_le_sub_left ?_ _))
        (by norm_num [federal_tuition_rate])
      exact mul_le_mul_of_nonneg_right (max_le_max (le_refl 0) (sub_le_sub_right h _))
        (by norm_num)
    · exact le_refl 0
  have hmed :
      max 0 (ded.medical_expenses - min 2759 (n2 * 0.03)) * federal_medical_rate ≤
        max 0 (ded.medical_expenses - min 2759 (n1 * 0.03)) * federal_medical_rate := by
    refine mul_le_mul_of_nonneg_right (max_le_max (le_refl 0) (sub_le_sub_left ?_ _))
      (by norm_num [federal_medical_rate])
    exact min_le_min (le_refl _) (mul_le_mul_of_nonneg_right h (by norm_num))
  linarith

theorem fed_sub_ftc_mono (ft : ForeignTaxPaid) (f1 f2 n1 n2 : ℚ) (h : f1 ≤ f2) :
    f1 - calculate_foreign_tax_credit ft f1 n1 ≤ f2 - calculate_foreign_tax_credit ft f2 n2 := by
  simp only [calculate_foreign_tax_credit]
  split_ifs with hc
  · simpa using h
  · rcases le_total (ft.foreign_business_tax + ft.foreign_non_business_tax) (f1 * 0.1)
      with h1 | h1 <;>
    rcases le_total (ft.foreign_business_tax + ft.foreign_non_business_tax) (f2 * 0.1)
      with h2 | h2
    · rw [min_eq_left h1, min_eq_left h2]; linarith
    · rw [min_eq_left h1, min_eq_right h2]; linarith
    · rw [min_eq_right h1, min_eq_left h2]; linarith
    · rw [min_eq_right h1, min_eq_right h2]; linarith

theorem clawback_term_mono (cap th r n1 n2 : ℚ) (hcap : 0 ≤ cap) (hr : 0 ≤ r) (h : n1 ≤ n2) :
    (if th < n1 then min cap ((n1 - th) * r) else 0) ≤
      (if th < n2 then min cap ((n2 - th) * r) else 0) := by
  split_ifs with g1 g2 g3
  · exact min_le_min (le_refl cap) (mul_le_mul_of_nonneg_right (sub_le_sub_right h th) hr)
  · exact absurd (lt_of_lt_of_le g1 h) g2
  · exact le_min hcap (mul_nonneg (by linarith) hr)
  · exact le_refl 0

theorem ei_clawback_term_mono (b th r n1 n2 : ℚ) (hr : 0 ≤ r) (h : n1 ≤ n2) :
    (if th < n1 ∧ 0 < b then min (b * 0.30) ((n1 - th) * r) else 0) ≤
      (if th < n2 ∧ 0 < b then min (b * 0.30) ((n2 - th) * r) else 0) := by
  split_ifs with g1 g2 g3
  · exact min_le_min (le_refl _) (mul_le_mul_of_nonneg_right (sub_le_sub_right h th) hr)
  · exact absurd ⟨lt_of_lt_of_le g1.1 h, g1.2⟩ g2
  · exact le_min (mul_nonneg (le_of_lt g3.2) (by norm_num))
      (mul_nonneg (by linarith [g3.1]) hr)
  · exact le_refl 0

theorem clawbacks_total_mono (inc : IncomeDetails) (hoas : 0 ≤ inc.oas_benefits)
    {n1 n2 : ℚ} (h : n1 ≤ n2) :
    (calculate_clawbacks n1 inc).total ≤ (calculate_clawbacks n2 inc).total := by
  simp only [calculate_clawbacks]
  have h1 := clawback_term_mono inc.oas_benefits oas_clawback_threshold oas_clawback_rate
    n1 n2 hoas (by norm_num [oas_clawback_rate]) h
  have h2 := ei_clawback_term_mono inc.ei_benefits ei_clawback_threshold ei_clawback_rate
    n1 n2 (by norm_num [ei_clawback_rate]) h
  linarith

theorem cpp_contribution_mono (p : String) {e1 e2 : ℚ} (h : e1 ≤ e2) :
    calculate_cpp_contribution e1 p ≤ calculate_cpp_contribution e2 p := by
  simp only [calculate_cpp_contribution]
  split_ifs with hq
  · exact max_le_max (le_refl 0)
      (mul_le_mul_of_nonneg_right (sub_le_sub_right (min_le_min h (le_refl _)) _)
        (by norm_num [qpp_rate]))
  · exact min_le_min
      (max_le_max (le_refl 0)
        (mul_le_mul_of_nonneg_right (sub_le_sub_right (min_le_min h (le_refl _)) _)
          (by norm_num [cpp_rate])))
      (le_refl _)

theorem ei_contribution_mono (p : String) {e1 e2 : ℚ} (h : e1 ≤ e2) :
    calculate_ei_contribution e1 p ≤ calculate_ei_contribution e2 p := by
  simp only [calculate_ei_contribution]
  have hins : min e1 ei_max_insurable ≤ min e2 ei_max_insurable := min_le_min h (le_refl _)
  split_ifs with hq
  · exact add_le_add (mul_le_mul_of_nonneg_right hins (by norm_num [ei_rate_quebec]))
      (mul_le_mul_of_nonneg_right hins (by norm_num [qpip_rate]))
  · exact mul_le_mul_of_nonneg_right hins (by norm_num [ei_rate])

theorem total_payable_withEmployment_mono (p : String) (pi : PersonalInfo)
    (inc : IncomeDetails) (ded : DeductionsCredits) (adv : AdvancedDeductions)
    (ft : ForeignTaxPaid) (hoas : 0 ≤ inc.oas_benefits) {e1 e2 : ℚ} (h : e1 ≤ e2) :
    total_payable_of p pi (withEmployment inc e1) ded adv ft ≤
      total_payable_of p pi (withEmployment inc e2) ded adv ft := by
  have hnet := net_income_withEmployment_mono inc ded adv h
  have hfed := federal_tax_withEmployment_mono inc ded adv h
  have hprov := provincial_tax_withEmployment_mono p inc ded adv h
  have hsur := provincial_surtax_withEmployment_mono p inc ded adv h
  have htosi : tosi_tax_of (withEmployment inc e1) = tosi_tax_of (withEmployment inc e2) := rfl
  have hafter : total_tax_after_credits_of p pi (withEmployment inc e1) ded adv ft ≤
      total_tax_after_credits_of p pi (withEmployment inc e2) ded adv ft := by
    unfold total_tax_after_credits_of total_tax_before_credits_of
      total_non_refundable_credits_of
    refine max_le_max (le_refl 0) ?_
    have hcred : credits_sum (calculate_non_refundable_credits p pi (withEmployment inc e2) ded
          (net_income_of (withEmployment inc e2) ded adv)) ≤
        credits_sum (calculate_non_refundable_credits p pi (withEmployment inc e1) ded
          (net_income_of (withEmployment inc e1) ded adv)) := by
      have ha := credits_sum_anti p pi (withEmployment inc e2) ded hnet
      have he : calculate_non_refundable_credits p pi (withEmployment inc e2) ded
          (net_income_of (withEmployment inc e1) ded adv) =
            calculate_non_refundable_credits p pi (withEmployment inc e1) ded
              (net_income_of (withEmployment inc e1) ded adv) := rfl
      rw [he] at ha
      exact ha
    have hftc := fed_sub_ftc_mono ft
      (federal_tax_of (withEmployment inc e1) ded adv)
      (federal_tax_of (withEmployment inc e2) ded adv)
      (net_income_of (withEmployment inc e1) ded adv)
      (net_income_of (withEmployment inc e2) ded adv) hfed
    linarith
  have hamt := amt_tax_withEmployment_mono inc ded adv h
  have hfinal : final_tax_of p pi (withEmployment inc e1) ded adv ft ≤
      final_tax_of p pi (withEmployment inc e2) ded adv ft := by
    unfold final_tax_of
    exact max_le_max hafter hamt
  have hcpp : calculate_cpp_contribution (withEmployment inc e1).employment_income p ≤
      calculate_cpp_contribution (withEmployment inc e2).employment_income p :=
    cpp_contribution_mono p h
  have hei : calculate_ei_contribution (withEmployment inc e1).employment_income p ≤
      calculate_ei_contribution (withEmployment inc e2).employment_income p :=
    ei_contribution_mono p h
  have hclaw : (calculate_clawbacks (net_income_of (withEmployment inc e1) ded adv)
        (withEmployment inc e1)).total ≤
      (calculate_clawbacks (net_income_of (withEmployment inc e2) ded adv)
        (withEmployment inc e2)).total := by
    have heq1 : calculate_clawbacks (net_income_of (withEmployment inc e1) ded adv)
        (withEmployment inc e1) =
          calculate_clawbacks (net_income_of (withEmployment inc e1) ded adv) inc := rfl
    have heq2 : calculate_clawbacks (net_income_of (withEmployment inc e2) ded adv)
        (withEmployment inc e2) =
          calculate_clawbacks (net_income_of (withEmployment inc e2) ded adv) inc := rfl
    rw [heq1, heq2]
    exact clawbacks_total_mono inc hoas hnet
  unfold total_payable_of
  exact add_le_add (add_le_add (add_le_add hfinal hcpp) hei) hclaw

/-- Aggregate non-refundable credits are non-negative whenever the claimed
amounts that enter them without a `max 0` floor are themselves non-negative. -/
theorem credits_sum_nonneg (province : String) (pi : PersonalInfo) (inc : IncomeDetails)
    (ded : DeductionsCredits) (n : ℚ) (hdep : 0 ≤ pi.num_dependants)
    (htu : 0 ≤ ded.tuition_fees) (hch : 0 ≤ ded.charitable_donations)
    (hpol : 0 ≤ ded.political_contributions)
    (hpen : 0 ≤ inc.private_pension + inc.rrif_withdrawals) :
    0 ≤ credits_sum (calculate_non_refundable_credits province pi inc ded n) := by
  simp only [credits_sum, calculate_non_refundable_credits]
  have hd : (0:ℚ) ≤ (pi.num_dependants : ℚ) := by exact_mod_cast hdep
  have h1 : (0:ℚ) ≤ federal_basic_personal * federal_tuition_rate := by
    norm_num [federal_basic_personal, federal_tuition_rate]
  have h2 : (0:ℚ) ≤ (if pi.is_married then
      max 0 (federal_spouse_equivalent - pi.spouse_income) * federal_tuition_rate else 0) := by
    split_ifs
    · exact mul_nonneg (le_max_left 0 _) (by norm_num [federal_tuition_rate])
    · exact le_refl 0
  have h3 : (0:ℚ) ≤ (pi.num_dependants : ℚ) * federal_dependant * federal_tuition_rate :=
    mul_nonneg (mul_nonneg hd (by norm_num [federal_dependant]))
      (by norm_num [federal_tuition_rate])
  have h4 : (0:ℚ) ≤ (if 65 ≤ pi.age then
      max 0 (federal_age_amount - max 0 (n - federal_age_threshold) * 0.15) *
        federal_tuition_rate else 0) := by
    split_ifs
    · exact mul_nonneg (le_max_left 0 _) (by norm_num [federal_tuition_rate])
    · exact le_refl 0
  have h5 : (0:ℚ) ≤ min federal_pension_amount
      (inc.private_pension + inc.rrif_withdrawals) * federal_tuition_rate :=
    mul_nonneg (le_min (by norm_num [federal_pension_amount]) hpen)
      (by norm_num [federal_tuition_rate])
  have h6 : (0:ℚ) ≤ (if pi.has_disability then
      federal_disability_amount * federal_tuition_rate else 0) := by
    split_ifs
    · norm_num [federal_disability_amount, federal_tuition_rate]
    · exact le_refl 0
  have h7 : (0:ℚ) ≤ ded.tuition_fees * federal_tuition_rate :=
    mul_nonneg htu (by norm_num [federal_tuition_rate])
  have h8 : (0:ℚ) ≤ max 0 (ded.medical_expenses - min 2759 (n * 0.03)) * federal_medical_rate :=
    mul_nonneg (le_max_left 0 _) (by norm_num [federal_medical_rate])
  have h9 : (0:ℚ) ≤ (if ded.charitable_donations ≤ 200 then
      ded.charitable_donations * federal_charitable_rate_low
      else 200 * federal_charitable_rate_low +
        (ded.charitable_donations - 200) * federal_charitable_rate_high) := by
    split_ifs with hg
    · exact mul_nonneg hch (by norm_num [federal_charitable_rate_low])
    · have h200 := not_le.mp hg
      have hlo : federal_charitable_rate_low = 15/100 := by norm_num [federal_charitable_rate_low]
      have hhi : federal_charitable_rate_high = 29/100 := by
        norm_num [federal_charitable_rate_high]
      rw [hlo, hhi]
      linarith
  have h10 : (0:ℚ) ≤ min (ded.political_contributions * 0.75) 650 :=
    le_min (mul_nonneg hpol (by norm_num)) (by norm_num)
  linarith

/-! Concrete evaluations of the pipeline at the ON / employment-60000
scenario input, shared by several of the claim theorems below. -/

theorem net_income_on60k :
    net_income_of { employment_income := 60000 } {} {} = 60000 := by
  norm_num [net_income_of, total_deductions_of, stock_option_deduction_of,
    calculate_total_income, federal_dividend_gross_up, max_def]

theorem taxable_income_on60k :
    taxable_income_of { employment_income := 60000 } {} {} = 60000 := by
  norm_num [taxable_income_of, additional_deductions_of, net_income_on60k]

theorem federal_tax_on60k :
    federal_tax_of { employment_income := 60000 } {} {} = 9227.315 := by
  unfold federal_tax_of
  rw [taxable_income_on60k]
  norm_num [calculate_tax_on_brackets, TaxBracket.cap, federal_brackets, min_def]

theorem total_payable_on60k :
    total_payable_of "ON" {} { employment_income := 60000 } {} {} {} = 14592029/1000 := by
  norm_num [total_payable_of, final_tax_of, total_tax_after_credits_of,
    total_tax_before_credits_of, total_non_refundable_credits_of, credits_sum,
    calculate_non_refundable_credits, calculate_foreign_tax_credit,
    calculate_alternative_minimum_tax, amt_exemption, amt_rate,
    federal_tax_of, provincial_tax_of, provincial_surtax_of, calculate_surtax, tosi_tax_of,
    taxable_income_of, net_income_of, additional_deductions_of, total_deductions_of,
    stock_option_deduction_of, calculate_total_income, calculate_tax_on_brackets,
    TaxBracket.cap, federal_brackets, provON,
    show provincial_data "ON" = some provON from rfl,
    calculate_cpp_contribution, calculate_ei_contribution, calculate_clawbacks,
    cpp_max_pensionable, cpp_basic_exemption, cpp_rate, cpp_max_contribution,
    ei_max_insurable, ei_rate, ei_rate_quebec, qpip_rate, qpp_rate, qpp_max_pensionable,
    qpp_basic_exemption, oas_clawback_threshold, oas_clawback_rate, ei_clawback_threshold,
    ei_clawback_rate, federal_basic_personal, federal_tuition_rate, federal_spouse_equivalent,
    federal_dependant, federal_age_amount, federal_age_threshold, federal_pension_amount,
    federal_disability_amount, federal_medical_rate, federal_charitable_rate_low,
    federal_charitable_rate_high, federal_dividend_gross_up, stock_option_deduction_rate,
    min_def, max_def, show ("ON":String) ≠ "QC" by decide]

/-! The claim theorems. -/

/-- C1 counterexample: for the unregistered province code "XX" the engine does
not fail with a configuration error — it returns a TaxResult whose provincial
tax is silently zero while federal tax is computed normally, refuting the
claim that such inputs never produce a result with zero provincial tax. -/
theorem c1_counterexample :
    (calculate_comprehensive_tax "XX" {} { employment_income := 60000 } {}
        none none none).provincial_tax = 0 ∧
    (calculate_comprehensive_tax "XX" {} { employment_income := 60000 } {}
        none none none).federal_tax = 9227.315 := by
  constructor
  · show provincial_tax_of "XX" { employment_income := 60000 } {} {} = 0
    simp [provincial_tax_of, show provincial_data "XX" = none from rfl]
  · exact federal_tax_on60k

/-- C1 amended: for every input whose province code is not a key of the
jurisdiction registry, calculate_comprehensive_tax raises no error; it returns
a result whose provincial tax and provincial surtax are silently zero. -/
theorem c1_unknown_province_silent_zero (province : String) (personal_info : PersonalInfo)
    (income : IncomeDetails) (deductions : DeductionsCredits)
    (ao : Option AdvancedDeductions) (fo : Option ForeignTaxPaid)
    (po : Option PensionSplitting) (h : provincial_data province = none) :
    (calculate_comprehensive_tax province personal_info income deductions
        ao fo po).provincial_tax = 0 ∧
    (calculate_comprehensive_tax province personal_info income deductions
        ao fo po).provincial_surtax = 0 := by
  constructor
  · show provincial_tax_of province income deductions (ao.getD {}) = 0
    simp [provincial_tax_of, h]
  · show provincial_surtax_of province income deductions (ao.getD {}) = 0
    simp [provincial_surtax_of, h]

theorem c1_unknown_province_silent_zero_witness :
    (calculate_comprehensive_tax "XX" {} {} {} none none none).provincial_tax = 0 ∧
    (calculate_comprehensive_tax "XX" {} {} {} none none none).provincial_surtax = 0 :=
  c1_unknown_province_silent_zero "XX" {} {} {} none none none rfl

/-- C2: the federal table and twelve of the thirteen provincial tables satisfy
the spec's bracket-list invariant (contiguous, non-overlapping, ascending,
final max unbounded), but the NT entry violates it: its final bracket's
max_income is the finite 239229 instead of unbounded. -/
theorem c2_registry_bracket_audit :
    bracketListWellFormed federal_brackets ∧
    bracketListWellFormed provAB.brackets ∧ bracketListWellFormed provBC.brackets ∧
    bracketListWellFormed provMB.brackets ∧ bracketListWellFormed provNB.brackets ∧
    bracketListWellFormed provNL.brackets ∧ bracketListWellFormed provNS.brackets ∧
    bracketListWellFormed provNU.brackets ∧ bracketListWellFormed provON.brackets ∧
    bracketListWellFormed provPE.brackets ∧ bracketListWellFormed provQC.brackets ∧
    bracketListWellFormed provSK.brackets ∧ bracketListWellFormed provYT.brackets ∧
    ¬ bracketListWellFormed provNT.brackets ∧
    registryLastMax "NT" = some (some 239229) := by
  refine ⟨?_, ?_, ?_, ?_, ?_, ?_, ?_, ?_, ?_, ?_, ?_, ?_, ?_, ?_, rfl⟩ <;>
    norm_num [bracketListWellFormed, federal_brackets, provAB, provBC, provMB, provNB,
      provNL, provNS, provNT, provNU, provON, provPE, provQC, provSK, provYT,
      Option.some_ne_none]

/-- C3 counterexample: at ON / employment 60000 the computed federal tax is
9227.315, not the approximately 9247.30 asserted by the claim. -/
theorem c3_counterexample :
    (calculate_comprehensive_tax "ON" {} { employment_income := 60000 } {}
        none none none).federal_tax ≠ 9247.30 := by
  have h := federal_tax_on60k
  show federal_tax_of { employment_income := 60000 } {} {} ≠ 9247.30
  rw [h]
  norm_num

/-- C3 amended: for ON / employment 60000 (single filer, nothing else),
taxable income is 60000, federal tax equals
55867 × 0.15 + (60000 − 55867) × 0.205 = 9227.315, and the combined marginal
rate is 0.205 + 0.0915 expressed as the percentage 29.65. -/
theorem c3_on_scenario :
    (calculate_comprehensive_tax "ON" {} { employment_income := 60000 } {}
        none none none).taxable_income = 60000 ∧
    (calculate_comprehensive_tax "ON" {} { employment_income := 60000 } {}
        none none none).federal_tax = 55867 * 0.15 + (60000 - 55867) * 0.205 ∧
    (calculate_comprehensive_tax "ON" {} { employment_income := 60000 } {}
        none none none).federal_tax = 9227.315 ∧
    (calculate_comprehensive_tax "ON" {} { employment_income := 60000 } {}
        none none none).marginal_tax_rate = 29.65 := by
  refine ⟨taxable_income_on60k, ?_, federal_tax_on60k, ?_⟩
  · have h := federal_tax_on60k
    show federal_tax_of { employment_income := 60000 } {} {} = _
    rw [h]
    norm_num
  · show calculate_combined_marginal_rate
      (taxable_income_of { employment_income := 60000 } {} {}) "ON" = 29.65
    rw [taxable_income_on60k]
    norm_num [calculate_combined_marginal_rate, calculate_marginal_rate, findBracketRate,
      federal_brackets, provON, show provincial_data "ON" = some provON from rfl]

/-- C4: the tax component of total payable is exactly
max(regular tax after credits, AMT tax), and is therefore never below the
regular tax after credits. -/
theorem c4_amt_dominance (province : String) (personal_info : PersonalInfo)
    (income : IncomeDetails) (deductions : DeductionsCredits)
    (ao : Option AdvancedDeductions) (fo : Option ForeignTaxPaid)
    (po : Option PensionSplitting) :
    (calculate_comprehensive_tax province personal_info income deductions
        ao fo po).total_payable =
      max (calculate_comprehensive_tax province personal_info income deductions
            ao fo po).total_tax_after_credits
          (calculate_comprehensive_tax province personal_info income deductions
            ao fo po).amt_tax +
        (calculate_comprehensive_tax province personal_info income deductions
          ao fo po).cpp_contribution +
        (calculate_comprehensive_tax province personal_info income deductions
          ao fo po).ei_contribution +
        (calculate_comprehensive_tax province personal_info income deductions
          ao fo po).total_clawbacks ∧
    (calculate_comprehensive_tax province personal_info income deductions
        ao fo po).total_tax_after_credits ≤
      max (calculate_comprehensive_tax province personal_info income deductions
            ao fo po).total_tax_after_credits
          (calculate_comprehensive_tax province personal_info income deductions
            ao fo po).amt_tax :=
  ⟨rfl, le_max_left _ _⟩

/-- C5: for every province (QC included) the CPP/QPP contribution equals
max(0, min(employment income, pensionable ceiling) − basic exemption) × plan
rate, and never exceeds the plan's maximum annual contribution (4055.25 for
CPP; for QPP the code applies no explicit cap, and the contribution is
bounded by its value at the pensionable ceiling). -/
theorem c5_cpp_qpp_formula (province : String) (employment_income : ℚ) :
    calculate_cpp_contribution employment_income province =
      max 0 (min employment_income
          (if province = "QC" then qpp_max_pensionable else cpp_max_pensionable) -
        (if province = "QC" then qpp_basic_exemption else cpp_basic_exemption)) *
        (if province = "QC" then qpp_rate else cpp_rate) ∧
    calculate_cpp_contribution employment_income province ≤
      (if province = "QC" then (qpp_max_pensionable - qpp_basic_exemption) * qpp_rate
       else cpp_max_contribution) := by
  by_cases hq : province = "QC"
  · simp only [calculate_cpp_contribution, if_pos hq]
    constructor
    · rw [max_mul_of_nonneg _ _ (show (0:ℚ) ≤ qpp_rate by norm_num [qpp_rate]), zero_mul]
    · refine max_le (by norm_num [qpp_max_pensionable, qpp_basic_exemption, qpp_rate]) ?_
      exact mul_le_mul_of_nonneg_right (sub_le_sub_right (min_le_right _ _) _)
        (by norm_num [qpp_rate])
  · simp only [calculate_cpp_contribution, if_neg hq]
    have hmm : max 0 ((min employment_income cpp_max_pensionable - cpp_basic_exemption) *
        cpp_rate) =
        max 0 (min employment_income cpp_max_pensionable - cpp_basic_exemption) * cpp_rate := by
      rw [max_mul_of_nonneg _ _ (show (0:ℚ) ≤ cpp_rate by norm_num [cpp_rate]), zero_mul]
    constructor
    · rw [hmm]
      refine min_eq_left ?_
      have hb : max 0 (min employment_income cpp_max_pensionable - cpp_basic_exemption) ≤
          67800 := by
        refine max_le (by norm_num) ?_
        have hmr := min_le_right employment_income cpp_max_pensionable
        have hconst : cpp_max_pensionable - cpp_basic_exemption = 67800 := by
          norm_num [cpp_max_pensionable, cpp_basic_exemption]
        linarith
      calc max 0 (min employment_income cpp_max_pensionable - cpp_basic_exemption) * cpp_rate
          ≤ 67800 * cpp_rate :=
            mul_le_mul_of_nonneg_right hb (by norm_num [cpp_rate])
        _ ≤ cpp_max_contribution := by norm_num [cpp_rate, cpp_max_contribution]
    · exact min_le_right _ _

/-- C6 counterexample: at ON / employment 60000 the stored average rate
(24.320048…, a percentage) differs from total payable divided by net income
(0.24320048…), refuting the claim that the field equals that quotient. -/
theorem c6_counterexample :
    (calculate_comprehensive_tax "ON" {} { employment_income := 60000 } {}
        none none none).average_tax_rate ≠
      (calculate_comprehensive_tax "ON" {} { employment_income := 60000 } {}
          none none none).total_payable /
        (calculate_comprehensive_tax "ON" {} { employment_income := 60000 } {}
          none none none).net_income := by
  show (if 0 < net_income_of { employment_income := 60000 } {} {} then
      total_payable_of "ON" {} { employment_income := 60000 } {} {} {} /
        net_income_of { employment_income := 60000 } {} {} * 100
    else 0) ≠
    total_payable_of "ON" {} { employment_income := 60000 } {} {} {} /
      net_income_of { employment_income := 60000 } {} {}
  rw [net_income_on60k, total_payable_on60k]
  norm_num

/-- C6 amended: the average-rate field equals total payable divided by net
income expressed as a percentage (multiplied by 100) when net income is
positive, and 0 otherwise. -/
theorem c6_average_rate_is_percent (province : String) (personal_info : PersonalInfo)
    (income : IncomeDetails) (deductions : DeductionsCredits)
    (ao : Option AdvancedDeductions) (fo : Option ForeignTaxPaid)
    (po : Option PensionSplitting) :
    (calculate_comprehensive_tax province personal_info income deductions
        ao fo po).average_tax_rate =
      (if 0 < (calculate_comprehensive_tax province personal_info income deductions
            ao fo po).net_income then
        (calculate_comprehensive_tax province personal_info income deductions
            ao fo po).total_payable /
          (calculate_comprehensive_tax province personal_info income deductions
            ao fo po).net_income * 100
      else 0) :=
  rfl

/-- C7: with jurisdiction, personal info, deductions and all other income
fields held constant (OAS benefits non-negative), total payable is a
non-decreasing function of the employment income field. -/
theorem c7_total_payable_monotone (province : String) (personal_info : PersonalInfo)
    (income : IncomeDetails) (deductions : DeductionsCredits)
    (ao : Option AdvancedDeductions) (fo : Option ForeignTaxPaid)
    (po : Option PensionSplitting) (hoas : 0 ≤ income.oas_benefits)
    {e1 e2 : ℚ} (h : e1 ≤ e2) :
    (calculate_comprehensive_tax province personal_info
        { income with employment_income := e1 } deductions ao fo po).total_payable ≤
      (calculate_comprehensive_tax province personal_info
        { income with employment_income := e2 } deductions ao fo po).total_payable :=
  total_payable_withEmployment_mono province personal_info income deductions
    (ao.getD {}) (fo.getD {}) hoas h

theorem c7_total_payable_monotone_witness :
    (calculate_comprehensive_tax "ON" {}
        { ({} : IncomeDetails) with employment_income := 40000 } {}
        none none none).total_payable ≤
      (calculate_comprehensive_tax "ON" {}
        { ({} : IncomeDetails) with employment_income := 80000 } {}
        none none none).total_payable :=
  c7_total_payable_monotone "ON" {} {} {} none none none (le_refl 0) (by norm_num)

/-- C8: the all-zero income and deductions input yields zero total income,
zero taxable income, zero federal, provincial and AMT tax, and zero total
payable, for any registry province and any personal info with a non-negative
dependant count. -/
theorem c8_zero_input_identity (province : String) (personal_info : PersonalInfo)
    (hdep : 0 ≤ personal_info.num_dependants) :
    (calculate_comprehensive_tax province personal_info {} {}
        none none none).total_income = 0 ∧
    (calculate_comprehensive_tax province personal_info {} {}
        none none none).taxable_income = 0 ∧
    (calculate_comprehensive_tax province personal_info {} {}
        none none none).federal_tax = 0 ∧
    (calculate_comprehensive_tax province personal_info {} {}
        none none none).provincial_tax = 0 ∧
    (calculate_comprehensive_tax province personal_info {} {}
        none none none).amt_tax = 0 ∧
    (calculate_comprehensive_tax province personal_info {} {}
        none none none).total_payable = 0 := by
  have h_ti : calculate_total_income {} = 0 := by
    norm_num [calculate_total_income, federal_dividend_gross_up, max_def]
  have h_net : net_income_of {} {} {} = 0 := by
    norm_num [net_income_of, total_deductions_of, stock_option_deduction_of, h_ti, max_def]
  have h_tax : taxable_income_of {} {} {} = 0 := by
    norm_num [taxable_income_of, additional_deductions_of, h_net, max_def]
  have h_fed : federal_tax_of {} {} {} = 0 := by
    unfold federal_tax_of
    rw [h_tax]
    exact tax_on_brackets_at_zero federal_brackets federal_headMin_nonneg
  have h_prov : provincial_tax_of province {} {} {} = 0 := by
    unfold provincial_tax_of
    cases hp : provincial_data province with
    | none => rfl
    | some d =>
      rw [h_tax]
      exact tax_on_brackets_at_zero d.brackets (provincial_data_sane province d hp).2.2
  have h_sur : provincial_surtax_of province {} {} {} = 0 := by
    unfold provincial_surtax_of
    cases hp : provincial_data province with
    | none => rfl
    | some d =>
      rw [h_prov]
      exact surtax_at_zero d.surtax (provincial_data_sane province d hp).2.1
  have h_tosi : tosi_tax_of {} = 0 := by
    norm_num [tosi_tax_of]
  have h_ftc : calculate_foreign_tax_credit {} (federal_tax_of {} {} {})
      (net_income_of {} {} {}) = 0 := by
    norm_num [calculate_foreign_tax_credit]
  have h_amt : (calculate_alternative_minimum_tax {} {} {}).amt_tax = 0 := by
    norm_num [calculate_alternative_minimum_tax, h_ti, amt_exemption, amt_rate, max_def]
  have h_after : total_tax_after_credits_of province personal_info {} {} {} {} = 0 := by
    unfold total_tax_after_credits_of total_tax_before_credits_of
      total_non_refundable_credits_of
    rw [h_ftc, h_fed, h_prov, h_sur, h_tosi, h_net]
    have hcs := credits_sum_nonneg province personal_info {} {} 0 hdep
      (by norm_num) (by norm_num) (by norm_num) (by norm_num)
    refine max_eq_left ?_
    linarith
  have h_cpp : calculate_cpp_contribution ({} : IncomeDetails).employment_income province
      = 0 := by
    simp only [calculate_cpp_contribution]
    split_ifs
    · norm_num [qpp_max_pensionable, qpp_basic_exemption, qpp_rate, min_def, max_def]
    · norm_num [cpp_max_pensionable, cpp_basic_exemption, cpp_rate, cpp_max_contribution,
        min_def, max_def]
  have h_ei : calculate_ei_contribution ({} : IncomeDetails).employment_income province
      = 0 := by
    simp only [calculate_ei_contribution]
    split_ifs
    · norm_num [ei_max_insurable, ei_rate_quebec, qpip_rate, min_def]
    · norm_num [ei_max_insurable, ei_rate, min_def]
  have h_claw : (calculate_clawbacks (net_income_of {} {} {}) {}).total = 0 := by
    rw [h_net]
    norm_num [calculate_clawbacks, oas_clawback_threshold, ei_clawback_threshold]
  refine ⟨h_ti, h_tax, h_fed, h_prov, h_amt, ?_⟩
  show total_payable_of province personal_info {} {} {} {} = 0
  unfold total_payable_of final_tax_of
  rw [h_after, h_amt, h_cpp, h_ei, h_claw]
  norm_num

theorem c8_zero_input_identity_witness :
    (calculate_comprehensive_tax "ON" {} {} {} none none none).total_income = 0 ∧
    (calculate_comprehensive_tax "ON" {} {} {} none none none).taxable_income = 0 ∧
    (calculate_comprehensive_tax "ON" {} {} {} none none none).federal_tax = 0 ∧
    (calculate_comprehensive_tax "ON" {} {} {} none none none).provincial_tax = 0 ∧
    (calculate_comprehensive_tax "ON" {} {} {} none none none).amt_tax = 0 ∧
    (calculate_comprehensive_tax "ON" {} {} {} none none none).total_payable = 0 :=
  c8_zero_input_identity "ON" {} (le_refl 0)

/-- C9 counterexample: a negative employment income is not rejected — the
engine computes a result from it, with total income −1000 and even a negative
EI contribution of −16.3, refuting the claim that negative monetary inputs
fail with a validation error at the boundary. -/
theorem c9_counterexample :
    (calculate_comprehensive_tax "ON" {} { employment_income := -1000 } {}
        none none none).total_income = -1000 ∧
    (calculate_comprehensive_tax "ON" {} { employment_income := -1000 } {}
        none none none).ei_contribution = -16.3 := by
  constructor
  · show calculate_total_income { employment_income := -1000 } = -1000
    norm_num [calculate_total_income, federal_dividend_gross_up, max_def]
  · show calculate_ei_contribution
      ({ employment_income := -1000 } : IncomeDetails).employment_income "ON" = -16.3
    norm_num [calculate_ei_contribution, ei_max_insurable, ei_rate, min_def,
      show ("ON":String) ≠ "QC" by decide]

/-- C9 amended: the engine performs no sign validation on monetary inputs;
it computes a result for every input, and the explicit max-0 floors keep the
computed net income and taxable income non-negative. -/
theorem c9_no_validation_floors (province : String) (personal_info : PersonalInfo)
    (income : IncomeDetails) (deductions : DeductionsCredits)
    (ao : Option AdvancedDeductions) (fo : Option ForeignTaxPaid)
    (po : Option PensionSplitting) :
    0 ≤ (calculate_comprehensive_tax province personal_info income deductions
        ao fo po).net_income ∧
    0 ≤ (calculate_comprehensive_tax province personal_info income deductions
        ao fo po).taxable_income :=
  ⟨le_max_left 0 _, le_max_left 0 _⟩

/-- C10: calculate_comprehensive_tax ignores its pension-splitting argument
entirely: any two elections (including None) produce identical TaxResults. -/
theorem c10_pension_splitting_no_effect (province : String) (personal_info : PersonalInfo)
    (income : IncomeDetails) (deductions : DeductionsCredits)
    (ao : Option AdvancedDeductions) (fo : Option ForeignTaxPaid)
    (ps1 ps2 : Option PensionSplitting) :
    calculate_comprehensive_tax province personal_info income deductions ao fo ps1 =
      calculate_comprehensive_tax province personal_info income deductions ao fo ps2 :=
  rfl

end TaxRay
